import Mathlib

/-!
Verification of the tabular type-mapping and round-trip conversion layer of
the Corporate-Restricted-Accounts-File repository (src/src/IDEALib.py).

The Python source is shallowly embedded: pandas dataframes become ordered
lists of named, typed columns; the IDEA COM automation surface becomes an
abstract environment record plus an explicit event trace; fallible Python
code (exceptions) becomes Option-valued Lean functions.  Every definition is
translated from the source file, with doc comments pointing at the function
it embeds.  All definitions come first, followed by all theorems.
-/

namespace IDEALib

/-! ### Generic helpers for embedding Python string and list operations -/

/-- Occurrence of one character list inside another (helper for the Python
substring operator). -/
def listContainsSub (pat : List Char) : List Char → Bool
  | [] => pat.isEmpty
  | x :: xs => pat.isPrefixOf (x :: xs) || listContainsSub pat xs

/-- Substring test: models the Python expression sub in s. -/
def containsSub (pat s : String) : Bool :=
  listContainsSub pat.toList s.toList

/-- Models pandas DataFrame.insert(loc, column, value): insert an element at
position i, appending at the end when i exceeds the length (in the embedded
code paths the position is always in range; pandas raises on an existing
column name, so the embedded paths are used with fresh names only). -/
def insertAt {α : Type} : Nat → α → List α → List α
  | 0, a, l => a :: l
  | _ + 1, a, [] => [a]
  | n + 1, a, x :: xs => x :: insertAt n a xs

/-- Models a Python dict update d[k] = v: replace the value at an existing
key in place, otherwise append the new binding at the end (insertion order
semantics of Python dicts). -/
def dictInsert {α : Type} (d : List (String × α)) (k : String) (v : α) :
    List (String × α) :=
  if d.any (fun p => p.1 == k) then
    d.map (fun p => if p.1 == k then (k, v) else p)
  else d ++ [(k, v)]

/-! ### Separator Configuration (IDEALib.py lines 31-36)

The module initialisation reads the locale decimal point and derives the
field delimiter:

    DELIMITER = ','
    DECIMAL_SEPARATOR = locale.localeconv()["decimal_point"]
    if locale.localeconv()["decimal_point"] != '.':
        DELIMITER = ';'
-/

/-- Embeds the module-level DELIMITER computation: start from a comma and
switch to a semicolon when the locale decimal point is not a period. -/
def computeDelimiter (decimalPoint : String) : String :=
  if decimalPoint ≠ "." then ";" else ","

/-- The process-wide Separator Configuration: the pair of module constants
DELIMITER and DECIMAL_SEPARATOR. -/
structure SeparatorConfig where
  delimiter : String
  decimalSeparator : String
deriving DecidableEq, Repr

/-- Builds the Separator Configuration from the locale decimal point, as the
module initialisation does. -/
def mkSeparatorConfig (decimalPoint : String) : SeparatorConfig :=
  { delimiter := computeDelimiter decimalPoint
    decimalSeparator := decimalPoint }

/-- Value of the Python constant csv.QUOTE_NONNUMERIC. -/
def QUOTE_NONNUMERIC : Nat := 2

/-- Parameter record of a pandas CSV call: field separator, decimal
separator, quote character and quoting mode. -/
structure CsvParams where
  sep : String
  decimal : String
  quotechar : Char
  quoting : Nat
deriving DecidableEq, Repr

/-- Embeds _import_csv_as_dataframe (IDEALib.py lines 378-381): the pandas
read_csv call is made with sep=DELIMITER, decimal=DECIMAL_SEPARATOR,
quotechar a double quote and quoting=csv.QUOTE_NONNUMERIC. -/
def importCsvParams (cfg : SeparatorConfig) : CsvParams :=
  { sep := cfg.delimiter
    decimal := cfg.decimalSeparator
    quotechar := '"'
    quoting := QUOTE_NONNUMERIC }

/-- Embeds _export_dataframe_to_csv (IDEALib.py lines 573-577): the pandas
to_csv call is made with sep=DELIMITER, a hard-coded decimal period,
quotechar a double quote and quoting=csv.QUOTE_NONNUMERIC. -/
def exportDataframeParams (cfg : SeparatorConfig) : CsvParams :=
  { sep := cfg.delimiter
    decimal := "."
    quotechar := '"'
    quoting := QUOTE_NONNUMERIC }

/-- Embeds the separator arguments of the IDEA-side export task
(_export_database_from_IDEA, line 309): task.Separators(DELIMITER,
DECIMAL_SEPARATOR). -/
def exportTaskSeparators (cfg : SeparatorConfig) : String × String :=
  (cfg.delimiter, cfg.decimalSeparator)

/-- Embeds the field separator of the import template builder
(_import_csv_into_idea, line 533): idea.FieldSeparator = DELIMITER. -/
def importTemplateFieldSeparator (cfg : SeparatorConfig) : String :=
  cfg.delimiter

/-! ### Import-direction type mapper (_map_database_col_types, lines 328-376) -/

/-- A column definition read from the IDEA table schema: name, native type
code and declared decimal count (tableDef.GetFieldAt). -/
structure FieldDef where
  Name : String
  TypeCode : Nat
  Decimals : Nat
deriving DecidableEq, Repr

/-- The pandas dtype targets used by the import mapper: Python object,
np.int64, np.float64, bool and np.int8. -/
inductive PandasType where
  | obj
  | int64
  | float64
  | boolT
  | int8
deriving DecidableEq, Repr

/-- IDEA native type code WI_BOOL. -/
def WI_BOOL : Nat := 10
/-- IDEA native type code WI_MULTISTATE. -/
def WI_MULTISTATE : Nat := 9
/-- The TIMES bucket: [WI_VIRT_TIME, WI_EDIT_TIME, WI_TIME_FIELD]. -/
def TIMES : List Nat := [13, 11, 11]
/-- The CHARS bucket: [WI_VIRT_CHAR, WI_EDIT_CHAR, WI_CHAR_FIELD,
WI_VIRT_DATE, WI_EDIT_DATE, WI_DATE_FIELD] — note that the three date codes
are classified as Character-like. -/
def CHARS : List Nat := [0, 3, 3, 2, 5, 5]
/-- The NUMS bucket: [WI_VIRT_NUM, WI_EDIT_NUM, WI_NUM_FIELD]. -/
def NUMS : List Nat := [1, 4, 4]
/-- The fieldType list: [WI_VIRT_DATE, WI_EDIT_DATE, WI_DATE_FIELD] — the
date-coded fields reported in the special field-code list. -/
def fieldTypeCodes : List Nat := [2, 5, 5]

/-- Result of the import-direction type mapper: the columnPairs dict, the
dates list, the times list and the fieldName list, in the order the Python
function returns them. -/
structure ColTypeMap where
  columnPairs : List (String × PandasType)
  dates : List String
  times : List String
  fieldName : List String
deriving DecidableEq, Repr

/-- One iteration of the _map_database_col_types loop body for a column
definition. -/
def mapColTypesStep (acc : ColTypeMap) (col : FieldDef) : ColTypeMap :=
  let acc1 :=
    if CHARS.contains col.TypeCode then
      { acc with columnPairs := dictInsert acc.columnPairs col.Name PandasType.obj }
    else if NUMS.contains col.TypeCode then
      let numType := if col.Decimals == 0 then PandasType.int64 else PandasType.float64
      { acc with columnPairs := dictInsert acc.columnPairs col.Name numType }
    else if TIMES.contains col.TypeCode then
      { acc with times := acc.times ++ [col.Name] }
    else if col.TypeCode == WI_BOOL then
      { acc with columnPairs := dictInsert acc.columnPairs col.Name PandasType.boolT }
    else if col.TypeCode == WI_MULTISTATE then
      { acc with columnPairs := dictInsert acc.columnPairs col.Name PandasType.int8 }
    else acc
  if fieldTypeCodes.contains col.TypeCode then
    { acc1 with fieldName := acc1.fieldName ++ [col.Name] }
  else acc1

/-- Embeds _map_database_col_types (lines 328-376): iterate the table
definition in declared order, classify each column by its native type code,
and collect the four results.  The dates list starts empty and is never
appended to anywhere in the loop. -/
def _map_database_col_types (tableDef : List FieldDef) : ColTypeMap :=
  tableDef.foldl mapColTypesStep ⟨[], [], [], []⟩

/-! ### Import-side frame and post-parse cleaning passes -/

/-- A generic imported column: name, pandas dtype name, whether the dtype is
currently the bounded categorical dtype, and the cell values rendered as
optional strings (none models a pandas null). -/
structure ImportCol where
  name : String
  dtypeName : String
  values : List (Option String)
deriving DecidableEq, Repr

/-- Distinct-count of a column, models pandas Series.nunique(): the number
of distinct non-null values. -/
def nuniqueStr (values : List (Option String)) : Nat :=
  (values.filterMap id).dedup.length

/-- The UNIQUE_VALUE_THRESHHOLD constant of
_convert_characters_to_categories (line 398). -/
def UNIQUE_VALUE_THRESHHOLD : Nat := 2500

/-- A character column of the imported frame together with its
bounded-categorical flag: isCategory models whether the pandas dtype is
category (initially false, object dtype, for every Character-like
column). -/
structure CharColumn where
  name : String
  values : List (Option String)
  isCategory : Bool
deriving DecidableEq, Repr, Inhabited

/-- Embeds _convert_characters_to_categories (lines 397-402): for every name
in the characters list, when the column has fewer than 2500 distinct values
its dtype is changed to category; otherwise it is left as unbounded object
text. -/
def _convert_characters_to_categories (df : List CharColumn)
    (characters : List String) : List CharColumn :=
  characters.foldl
    (fun acc col =>
      acc.map (fun c =>
        if c.name == col ∧ nuniqueStr c.values < UNIQUE_VALUE_THRESHHOLD then
          { c with isCategory := true }
        else c))
    df

/-! ### Date reconstruction of store-date-coded text fields
(_convert_character_to_datetime, lines 404-409) -/

/-- A calendar date produced by the explicit 4-digit-year, 2-digit-month,
2-digit-day parse. -/
structure Ymd where
  year : Nat
  month : Nat
  day : Nat
deriving DecidableEq, Repr

/-- Gregorian leap-year rule. -/
def isLeapYear (y : Nat) : Bool :=
  (y % 4 == 0 && y % 100 != 0) || y % 400 == 0

/-- Days in a month of a given year. -/
def daysInMonth (y m : Nat) : Nat :=
  if m == 2 then (if isLeapYear y then 29 else 28)
  else if m == 4 || m == 6 || m == 9 || m == 11 then 30
  else 31

/-- Whether a calendar date lies inside the pandas nanosecond Timestamp
range: midnight timestamps from 1677-09-22 up to 2262-04-11 are
representable; outside this range pandas raises OutOfBoundsDatetime, which
errors=coerce turns into a null. -/
def inPandasRange (d : Ymd) : Bool :=
  ((1677 < d.year || (d.year == 1677 &&
      (9 < d.month || (d.month == 9 && 22 ≤ d.day)))) &&
   (d.year < 2262 || (d.year == 2262 &&
      (d.month < 4 || (d.month == 4 && d.day ≤ 11)))))

/-- Numeric value of a digit character run. -/
def digitsToNat (l : List Char) : Nat :=
  l.foldl (fun acc c => acc * 10 + (c.toNat - '0'.toNat)) 0

/-- Models pd.to_datetime(s, format=yyyymmdd, errors=coerce) on a single
string: exactly eight digits whose year, month and day fields form a valid
calendar date inside the pandas Timestamp range parse to that date; every
other string is coerced to null. -/
def parseYmd8 (s : String) : Option Ymd :=
  let l := s.toList
  if l.length == 8 && l.all (fun c => c.isDigit) then
    let y := digitsToNat (l.take 4)
    let m := digitsToNat ((l.drop 4).take 2)
    let d := digitsToNat (l.drop 6)
    if 1 ≤ m && m ≤ 12 && 1 ≤ d && d ≤ daysInMonth y m &&
        inPandasRange ⟨y, m, d⟩ then
      some ⟨y, m, d⟩
    else none
  else none

/-- First statement of the loop body of _convert_character_to_datetime:
df[field].replace with a dict mapping the literal 00000000 to np.nan. -/
def replaceNullSentinel (v : Option String) : Option String :=
  if v == some "00000000" then none else v

/-- Second statement of the loop body: pd.to_datetime with the explicit
yyyymmdd format and errors=coerce; a null input stays null. -/
def toDatetimeCoerce (v : Option String) : Option Ymd :=
  v.bind parseYmd8

/-- Embeds the per-column effect of _convert_character_to_datetime (lines
404-409): replace the 00000000 sentinel by null, then parse with the
explicit format, coercing unparseable values to null. (The function also
deletes the field from the dtype mapping; that bookkeeping is embedded
separately in the idea2py model.) -/
def _convert_character_to_datetime (col : List (Option String)) :
    List (Option Ymd) :=
  (col.map replaceNullSentinel).map toDatetimeCoerce

/-! ### Post-parse date re-parse pass (_clean_imported_dates, lines 390-394)

The pass re-parses, with the general pandas parser, every column in the
dates list whose dtype is not already a datetime64 dtype.  The general
parser pd.to_datetime without a format is an external collaborator; it is
taken as a parameter. -/

/-- Embeds _clean_imported_dates: for each column name in the dates list,
if the column dtype does not contain datetime64, overwrite the column with
the result of the general pandas date parser (passed in as toDatetime). -/
def _clean_imported_dates (toDatetime : List (Option String) → List (Option String))
    (df : List ImportCol) (dates : List String) : List ImportCol :=
  dates.foldl
    (fun acc column =>
      acc.map (fun c =>
        if c.name == column ∧ ¬ (containsSub "datetime64" c.dtypeName) then
          { c with dtypeName := "datetime64[ns]", values := toDatetime c.values }
        else c))
    df

/-! ### Export-side cleaning (_clean_dataframe_for_export, lines 600-686)

A dataframe handed to the export path is modelled as an ordered list of
named columns.  A datetime64 column's cells are modelled by the renderings
pandas produces for their date and time components (none models NaT); the
other dtypes carry the data the cleaning loop touches. -/

/-- One non-null cell of a datetime64 column: the str() rendering of its
dt.date component and of its dt.time component. -/
structure DtCell where
  dateStr : String
  timeStr : String
deriving DecidableEq, Repr

/-- Column payloads of the export-side frame. -/
inductive ColData where
  | dtData (rows : List (Option DtCell))
  | boolData (rows : List Bool)
  | intData (rows : List Int)
  | tdData (rows : List (Option Nat))
  | strData (rows : List String)
  | catData (rows : List (Option String))
deriving DecidableEq, Repr

/-- A named column of the export-side frame: name, pandas dtype string (as
compared by the cleaning loop) and payload. -/
structure PCol where
  name : String
  dtype : String
  data : ColData
deriving DecidableEq, Repr

/-- Number of rows of a column payload. -/
def colRowCount : ColData → Nat
  | .dtData rows => rows.length
  | .boolData rows => rows.length
  | .intData rows => rows.length
  | .tdData rows => rows.length
  | .strData rows => rows.length
  | .catData rows => rows.length

/-- Models len(df): the row count of the frame (zero for a frame with no
columns). -/
def frameLen : List PCol → Nat
  | [] => 0
  | c :: _ => colRowCount c.data

/-- The time-component series of a datetime column, as optional renderings
(colMaster.dt.time; none models NaT). -/
def timeRenderings (rows : List (Option DtCell)) : List (Option String) :=
  rows.map (fun r => r.map (fun cell => cell.timeStr))

/-- The date-component strings after astype(str) followed by the
str.replace of NaT with the empty string (lines 648-649 and 665-666): a
null cell renders as NaT and is replaced by the empty string. -/
def dateStrings (rows : List (Option DtCell)) : List String :=
  rows.map (fun r => match r with
    | some cell => cell.dateStr
    | none => "")

/-- The time-component strings after astype(str) (line 656): a null cell
renders as NaT and is not replaced. -/
def timeStrings (rows : List (Option DtCell)) : List String :=
  rows.map (fun r => match r with
    | some cell => cell.timeStr
    | none => "NaT")

/-- The rendering of the first value of a series, as it appears inside
str(series.head(1)) (the Python check searches that text for the midnight
and null-time literals; the surrounding index, series name and dtype text of
the pandas rendering contain neither literal for the frames modelled
here). -/
def headRendering (col : List (Option String)) : String :=
  match col with
  | [] => ""
  | some s :: _ => s
  | none :: _ => "NaT"

/-- Embeds _is_valid_time_column (lines 600-605): a time column is invalid
when it has no distinct non-null value, or exactly one distinct non-null
value while the first row's rendering contains the midnight literal or the
null-time literal. -/
def _is_valid_time_column (colTime : List (Option String)) : Bool :=
  if nuniqueStr colTime < 1 then false
  else if nuniqueStr colTime == 1 &&
      (containsSub "00:00:00" (headRendering colTime) ||
        containsSub "NaT" (headRendering colTime)) then false
  else true

/-- Two-digit zero padding, as the Python format field 02d. -/
def pad2 (n : Nat) : String :=
  if n < 10 then "0" ++ toString n else toString n

/-- Embeds _clean_timedelta_values (lines 590-597): a duration in seconds is
rendered as zero-padded HH:MM:SS text; a null duration (whose total_seconds
is nan) fails the int() conversions and is rendered as None. -/
def _clean_timedelta_values : Option Nat → Option String
  | none => none
  | some ts =>
      some (pad2 (ts / 3600) ++ ":" ++ pad2 ((ts % 3600) / 60) ++ ":" ++
        pad2 (ts % 60))

/-- Embeds _clean_boolean_values (lines 583-584) vectorised over a column:
True becomes 1 and False becomes 0; payloads of other shapes are
unreachable in the dispatch and pass through. -/
def boolToInt : ColData → ColData
  | .boolData rows => .intData (rows.map (fun b => if b then 1 else 0))
  | d => d

/-- The timedelta branch payload conversion (lines 681-682): apply
_clean_timedelta_values to every cell, then astype(category). -/
def tdToStrings : ColData → ColData
  | .tdData rows => .catData (rows.map _clean_timedelta_values)
  | d => d

/-- Payload of the named column in the current frame (unique names are
assumed by the cleaning loop, which addresses columns by name). -/
def lookupData (df : List PCol) (n : String) : Option ColData :=
  (df.find? (fun c => c.name == n)).map (fun c => c.data)

/-- In-place overwrite df[n] = value keeping the dtype as recorded
(pandas infers a new dtype; the snapshot the loop dispatches on is taken
before the loop and is not affected). -/
def mapColData (df : List PCol) (n : String) (f : ColData → ColData) :
    List PCol :=
  df.map (fun c => if c.name == n then { c with data := f c.data } else c)

/-- In-place overwrite df[n] = value that also records the new dtype
(used where a later astype fixes the dtype). -/
def mapColDataDtype (df : List PCol) (n : String) (dt : String)
    (f : ColData → ColData) : List PCol :=
  df.map (fun c =>
    if c.name == n then { c with dtype := dt, data := f c.data } else c)

/-- Loop state of _clean_dataframe_for_export: the evolving frame, the
dateFields, timeFields and toDrop lists, and the returned column map
dict. -/
structure CleanState where
  df : List PCol
  dateFields : List String
  timeFields : List String
  toDrop : List String
  fmap : List (String × String)
deriving DecidableEq, Repr

/-- One iteration of the _clean_dataframe_for_export loop for the column at
original position i with snapshot name and dtype (the loop iterates the
columns and dtypes captured before any insertion, but reads the data and
performs insertions on the current frame). -/
def cleanStep (i : Nat) (name dtype : String) (s : CleanState) : CleanState :=
  if containsSub "datetime64" dtype then
    match lookupData s.df name with
    | some (ColData.dtData rows) =>
      if _is_valid_time_column (timeRenderings rows) then
        let dateHeader := name ++ "_DATE"
        let timeHeader := name ++ "_TIME"
        let df1 := insertAt i
          ⟨dateHeader, "object", ColData.strData (dateStrings rows)⟩ s.df
        let df2 := insertAt (i + 1)
          ⟨timeHeader, "object", ColData.strData (timeStrings rows)⟩ df1
        { df := df2
          dateFields := s.dateFields ++ [dateHeader]
          timeFields := s.timeFields ++ [timeHeader]
          toDrop := s.toDrop ++ [name]
          fmap := dictInsert (dictInsert s.fmap dateHeader "date") timeHeader "time" }
      else
        { s with
          df := mapColDataDtype s.df name "object"
            (fun _ => ColData.strData (dateStrings rows))
          dateFields := s.dateFields ++ [name]
          fmap := dictInsert s.fmap name "date" }
    | _ => s
  else
    let s1 :=
      if dtype == "bool" then
        { s with
          df := mapColData s.df name boolToInt
          fmap := dictInsert s.fmap name "boolean" }
      else s
    let s2 :=
      if dtype == "int8" then
        { s1 with fmap := dictInsert s1.fmap name "multistate" }
      else s1
    if containsSub "timedelta" dtype then
      { s2 with
        df := mapColDataDtype s2.df name "category" tdToStrings
        timeFields := s2.timeFields ++ [name]
        fmap := dictInsert s2.fmap name "time" }
    else s2

/-- The loop of _clean_dataframe_for_export over the snapshot of column
names and dtypes, carrying the original position index. -/
def cleanFold : Nat → List (String × String) → CleanState → CleanState
  | _, [], s => s
  | i, (n, t) :: rest, s => cleanFold (i + 1) rest (cleanStep i n t s)

/-- Embeds _clean_dataframe_for_export (lines 616-686): snapshot the column
names and dtypes, run the loop, then drop the original datetime columns
that were split, returning the frame, the column map and the dateFields and
timeFields lists. -/
def _clean_dataframe_for_export (df : List PCol) :
    List PCol × List (String × String) × List String × List String :=
  let s0 : CleanState := ⟨df, [], [], [], []⟩
  let s := cleanFold 0 (df.map (fun c => (c.name, c.dtype))) s0
  let out := s.df.filter (fun c => !(s.toDrop.contains c.name))
  (out, s.fmap, s.dateFields, s.timeFields)

/-- The ordered list of column names of a frame. -/
def colNames (df : List PCol) : List String :=
  df.map (fun c => c.name)

/-! ### Export-direction type mapper (_import_csv_into_idea, lines 517-567)

The template builder walks the cleaned dataframe columns in order and emits
one appendfield call per column; for Float columns it scans the column's
values to infer the decimal-place count:

    numericlist = df[columnName].tolist()
    maximumnumberofdecimalplaces =
        max(([len(str(i).rsplit(chr(46), 1)[-1]) for i in numericlist]))
    if maximumnumberofdecimalplaces > 6:
        maximumnumberofdecimalplaces = 6
-/

/-- Length of the text after the last period of a value's rendering: embeds
len(str(i).rsplit(period, 1)[-1]).  When the rendering holds no period the
whole rendering is returned by rsplit, so its full length is counted. -/
def decimalsAfterPoint (s : String) : Nat :=
  (s.toList.reverse.takeWhile (fun c => c != '.')).length

/-- The max() call over the per-value decimal counts: none models the
ValueError that Python max() raises on an empty sequence. -/
def maxObservedDecimals (renderings : List String) : Option Nat :=
  match renderings.map decimalsAfterPoint with
  | [] => none
  | x :: xs => some (xs.foldl max x)

/-- The decimal count emitted for a Float column: the observed maximum
clamped at the store ceiling of 6. -/
def floatFieldDecimals (renderings : List String) : Option Nat :=
  (maxObservedDecimals renderings).map (fun m => if m > 6 then 6 else m)

/-- The dtype strings matched by the integer branch of the template builder
(the source lists int32 twice). -/
def intTypeStrings : List String := ["int64", "int32", "int32", "int8", "int"]

/-- The dtype strings matched by the float branch of the template builder. -/
def floatTypeStrings : List String :=
  ["float64", "float32", "float16", "float8", "float"]

/-- One emitted appendfield call of the template builder: the column name
(used for both name and description), the three leading numeric arguments,
the decimal-place count, the boolean argument and the mask argument, in
source order. -/
structure TField where
  name : String
  p1 : Nat
  p2 : Nat
  p3 : Nat
  decimals : Nat
  flag : Bool
  mask : String
deriving DecidableEq, Repr

/-- Embeds the per-column dispatch of _import_csv_into_idea (lines 538-558):
date columns get a Date field with the date mask, time columns a Time field
with the time mask, category columns a Character field, integer columns a
Numeric field with zero decimals, float columns a Numeric field whose
decimal count is scanned from the values (none models the ValueError raised
by max() on an empty column), and anything else a generic Character
field. -/
def appendFieldFor (dateFields timeFields : List String)
    (dateMask timeMask : String) (name dtype : String)
    (renderings : List String) : Option TField :=
  if dateFields.contains name then
    some ⟨name, 5, 66, 8, 0, false, dateMask⟩
  else if timeFields.contains name then
    some ⟨name, 117, 74, 11, 0, false, timeMask⟩
  else if dtype == "category" && !(dateFields.contains name) then
    some ⟨name, 1, 0, 1, 0, false, ""⟩
  else if intTypeStrings.contains dtype then
    some ⟨name, 2, 0, 1, 0, false, ""⟩
  else if floatTypeStrings.contains dtype then
    (floatFieldDecimals renderings).map (fun d => ⟨name, 2, 0, 1, d, false, ""⟩)
  else
    some ⟨name, 1, 0, 1, 0, false, ""⟩

/-! ### Control-flow models of idea2py (lines 421-493) and py2idea
(lines 695-757)

The two conversion drivers are embedded as functions over an abstract
environment describing the IDEA client and filesystem, returning the Python
return value (None becomes none) together with the ordered trace of
side-effect events the run performs.  The try blocks are modelled by a
conversionSucceeds flag: when false, an exception is raised inside the try
block and the function returns None from the except handler without running
the statements after the try statement. -/

/-- Side-effect events of a conversion run. -/
inductive Event where
  | openDatabase (name : String)
  | readCount
  | readTableDef
  | exportTask
  | createTempDir
  | cleanupTempDir
  | writeCsv
  | storeImport (name : String)
  | readDbExtension
  | readWorkingDirectory
  | readLanguage
deriving DecidableEq, Repr

/-- Whether an event talks to the IDEA application (COM calls), as opposed
to purely local filesystem work. -/
def isStoreInteraction : Event → Bool
  | .openDatabase _ => true
  | .readCount => true
  | .readTableDef => true
  | .exportTask => true
  | .storeImport _ => true
  | .readDbExtension => true
  | .readWorkingDirectory => true
  | .readLanguage => true
  | .createTempDir => false
  | .cleanupTempDir => false
  | .writeCsv => false

/-- Index of the last occurrence in a character list of any of the given
characters (helper for os.path.splitext). -/
def lastIdxOf (l : List Char) (cs : List Char) : Option Nat :=
  (l.foldl
    (fun (st : Nat × Option Nat) c =>
      (st.1 + 1, if cs.contains c then some st.1 else st.2))
    (0, none)).2

/-- Models os.path.splitext on Windows: split at the last period that comes
after the last path separator, provided the basename has a character other
than a period before it; otherwise the extension is empty. -/
def splitext (s : String) : String × String :=
  let l := s.toList
  let sepIdx := lastIdxOf l ['\\', '/']
  let dotIdx := lastIdxOf l ['.']
  match dotIdx with
  | none => (s, "")
  | some d =>
    let start := match sepIdx with
      | none => 0
      | some si => si + 1
    let sepOk := match sepIdx with
      | none => true
      | some si => decide (si < d)
    let hasNonDot := ((l.drop start).take (d - start)).any (fun c => c != '.')
    if sepOk && hasNonDot then (String.mk (l.take d), String.mk (l.drop d))
    else (s, "")

/-- Lowercases an ASCII letter (models str.lower on the extension
strings compared by the drivers). -/
def lowerChar (c : Char) : Char :=
  if 'A' ≤ c ∧ c ≤ 'Z' then Char.ofNat (c.toNat + 32) else c

/-- Models str.lower(). -/
def strLower (s : String) : String :=
  String.mk (s.toList.map lowerChar)

/-- Models databaseName.count of the backslash character. -/
def countBackslashes (s : String) : Nat :=
  s.toList.count '\\'

/-- Models os.path.join of a directory and a file name on Windows for the
shapes the drivers produce. -/
def pathJoin (dir name : String) : String :=
  if dir.toList.getLast? = some '\\' then dir ++ name
  else dir ++ "\\" ++ name

/-- Abstract IDEA environment of an idea2py run. -/
structure Idea2PyEnv where
  dbExtension : Option String
  openSucceeds : Bool
  dbCount : Nat
  conversionSucceeds : Bool

/-- Embeds the driver idea2py (lines 421-493) for a caller-supplied database
path (a missing path prompts the interactive file explorer dialog, outside
this model): normalise the extension reading the configured one when
needed, open the database, reject a zero-record database, create the
per-call temporary directory, run the export task and the typed parse and
cleaning passes inside a try block, and call the temporary-directory cleanup
only after the try block succeeds. -/
def idea2py_model (env : Idea2PyEnv) (database : String) :
    Option Unit × List Event :=
  let (root, ext) := splitext database
  let needExt := strLower ext != ".imd" && strLower ext != ".idm"
  let t0 : List Event := if needExt then [Event.readDbExtension] else []
  let resolved : Option String :=
    if needExt then (env.dbExtension).map (fun e => root ++ e)
    else some database
  match resolved with
  | none => (none, t0)
  | some dbName =>
    let t1 := t0 ++ [Event.openDatabase dbName]
    if !env.openSucceeds then (none, t1)
    else
      let t2 := t1 ++ [Event.readCount]
      if env.dbCount == 0 then (none, t2)
      else
        let t3 := t2 ++ [Event.createTempDir]
        if !env.conversionSucceeds then (none, t3 ++ [Event.exportTask])
        else (some (), t3 ++ [Event.exportTask, Event.readTableDef,
          Event.cleanupTempDir])

/-- Abstract environment of a py2idea run. -/
structure Py2IdeaEnv where
  dbExtension : Option String
  workingDirectory : String
  fileExists : String → Bool
  uniqueName : String → String
  conversionSucceeds : Bool

/-- The target-name resolution steps of py2idea (lines 715-728): normalise
the extension reading the configured one when needed, then prefix the
working directory when the name carries no backslash. -/
def resolveDbName (env : Py2IdeaEnv) (databaseName : String) :
    Option String × List Event :=
  let (root, ext) := splitext databaseName
  let needExt := strLower ext != ".imd" && strLower ext != ".idm"
  let t0 : List Event := if needExt then [Event.readDbExtension] else []
  let step1 : Option String :=
    if needExt then (env.dbExtension).map (fun e => root ++ e)
    else some databaseName
  match step1 with
  | none => (none, t0)
  | some name1 =>
    if countBackslashes name1 == 0 then
      (some (pathJoin env.workingDirectory name1),
        t0 ++ [Event.readWorkingDirectory])
    else (some name1, t0)

/-- The conversion stage of py2idea (lines 738-757): create the temporary
directory, then inside a try block clean the frame, write the CSV and import
it into IDEA (which reads the extension and the language masks); the
temporary-directory cleanup runs only after the try block succeeds.  A
failure inside the try block returns None from the except handler with no
cleanup call. -/
def py2idea_convert (env : Py2IdeaEnv) (dbName : String) (t : List Event) :
    Option String × List Event :=
  let t1 := t ++ [Event.createTempDir]
  if !env.conversionSucceeds then (none, t1)
  else
    (some dbName, t1 ++ [Event.writeCsv, Event.readDbExtension,
      Event.readLanguage, Event.storeImport dbName, Event.cleanupTempDir])

/-- Embeds the driver py2idea (lines 695-757): reject a missing database
name, a missing dataframe and a zero-row dataframe, resolve the target name,
reject an existing target unless createUniqueFile is set (in which case a
unique name is taken from the client), then run the conversion stage. -/
def py2idea_model (env : Py2IdeaEnv) (dataframe : Option (List PCol))
    (databaseName : Option String) (createUniqueFile : Bool) :
    Option String × List Event :=
  match databaseName with
  | none => (none, [])
  | some dbn =>
    match dataframe with
    | none => (none, [])
    | some df =>
      if frameLen df == 0 then (none, [])
      else
        match resolveDbName env dbn with
        | (none, t) => (none, t)
        | (some name1, t) =>
          if env.fileExists name1 then
            if createUniqueFile then
              py2idea_convert env (env.uniqueName name1) t
            else (none, t)
          else py2idea_convert env name1 t

end IDEALib

/-! ## Theorems -/

namespace IDEALib

theorem insertAt_length_self {α : Type} (l₁ l₂ : List α) (a : α) :
    insertAt l₁.length a (l₁ ++ l₂) = l₁ ++ a :: l₂ := by
  induction l₁ with
  | nil => rfl
  | cons x xs ih => simp [insertAt, ih]

theorem map_insertAt {α β : Type} (f : α → β) (a : α) :
    ∀ (n : Nat) (l : List α),
      (insertAt n a l).map f = insertAt n (f a) (l.map f)
  | 0, _ => rfl
  | _ + 1, [] => rfl
  | n + 1, x :: xs => by simp [insertAt, map_insertAt f a n xs]

/-- C5: if the locale decimal separator is not a period, the field delimiter
derived at module load is a semicolon — never a comma — and that single
delimiter is the one passed to every text import and export site
(_export_database_from_IDEA, _import_csv_as_dataframe,
_export_dataframe_to_csv and the import template builder). -/
theorem c5_separator_consistency (dp : String) (h : dp ≠ ".") :
    (mkSeparatorConfig dp).delimiter = ";" ∧
    (mkSeparatorConfig dp).delimiter ≠ "," ∧
    (exportTaskSeparators (mkSeparatorConfig dp)).1 = ";" ∧
    (importCsvParams (mkSeparatorConfig dp)).sep = ";" ∧
    (exportDataframeParams (mkSeparatorConfig dp)).sep = ";" ∧
    importTemplateFieldSeparator (mkSeparatorConfig dp) = ";" := by
  simp [mkSeparatorConfig, computeDelimiter, exportTaskSeparators,
    importCsvParams, exportDataframeParams, importTemplateFieldSeparator, h]

/-- Witness for C5 at the concrete locale decimal separator comma. -/
theorem c5_separator_consistency_witness :
    ("," : String) ≠ "." ∧
      (mkSeparatorConfig ",").delimiter = ";" ∧
      (mkSeparatorConfig ",").delimiter ≠ "," :=
  ⟨by decide, (c5_separator_consistency "," (by decide)).1,
    (c5_separator_consistency "," (by decide)).2.1⟩

/-- C8 counterexample: in a locale whose decimal separator is a comma, the
parse direction reads CSV with decimal separator comma while the serialize
direction writes CSV with a hard-coded decimal period, so the two directions
do not use the same decimal separator, contradicting the claim. -/
theorem c8_counterexample :
    (importCsvParams (mkSeparatorConfig ",")).decimal = "," ∧
    (exportDataframeParams (mkSeparatorConfig ",")).decimal = "." ∧
    (exportDataframeParams (mkSeparatorConfig ",")).decimal ≠
      (importCsvParams (mkSeparatorConfig ",")).decimal := by
  refine ⟨rfl, rfl, by decide⟩

theorem mapColTypesStep_dates (acc : ColTypeMap) (col : FieldDef) :
    (mapColTypesStep acc col).dates = acc.dates := by
  simp only [mapColTypesStep]
  repeat' split
  all_goals rfl

theorem mapColTypesStep_fieldName (acc : ColTypeMap) (col : FieldDef) :
    (mapColTypesStep acc col).fieldName =
      if fieldTypeCodes.contains col.TypeCode then
        acc.fieldName ++ [col.Name]
      else acc.fieldName := by
  simp only [mapColTypesStep]
  repeat' split
  all_goals rfl

theorem foldl_mapColTypesStep_dates :
    ∀ (l : List FieldDef) (acc : ColTypeMap),
      (l.foldl mapColTypesStep acc).dates = acc.dates
  | [], _ => rfl
  | c :: cs, acc => by
    rw [List.foldl_cons, foldl_mapColTypesStep_dates cs, mapColTypesStep_dates]

theorem foldl_mapColTypesStep_fieldName_mono :
    ∀ (l : List FieldDef) (acc : ColTypeMap) (x : String),
      x ∈ acc.fieldName → x ∈ (l.foldl mapColTypesStep acc).fieldName
  | [], _, _, h => h
  | c :: cs, acc, x, h => by
    rw [List.foldl_cons]
    apply foldl_mapColTypesStep_fieldName_mono cs
    rw [mapColTypesStep_fieldName]
    split
    · exact List.mem_append_left _ h
    · exact h

theorem foldl_mapColTypesStep_fieldName_mem :
    ∀ (l : List FieldDef) (acc : ColTypeMap) (c : FieldDef),
      c ∈ l → fieldTypeCodes.contains c.TypeCode = true →
      c.Name ∈ (l.foldl mapColTypesStep acc).fieldName
  | [], _, _, h, _ => absurd h (List.not_mem_nil _)
  | d :: ds, acc, c, h, hc => by
    rw [List.foldl_cons]
    rcases List.mem_cons.mp h with h1 | h2
    · subst h1
      apply foldl_mapColTypesStep_fieldName_mono
      rw [mapColTypesStep_fieldName]
      have hm : c.TypeCode ∈ fieldTypeCodes := by simpa using hc
      simp [hm]
    · exact foldl_mapColTypesStep_fieldName_mem ds _ c h2 hc

/-- C10: for every store schema the import-direction type mapper returns an
empty Date-reconstruction column list; consequently the post-parse date
re-parse pass iterates over zero columns and returns the frame unchanged;
and every date-coded column (native codes 2 and 5) is placed in the
Character-like bucket and reported in the special field-code list. -/
theorem c10_import_mapper_empty_dates (tableDef : List FieldDef)
    (toDatetime : List (Option String) → List (Option String))
    (df : List ImportCol) :
    (_map_database_col_types tableDef).dates = [] ∧
    _clean_imported_dates toDatetime df (_map_database_col_types tableDef).dates = df ∧
    ∀ c ∈ tableDef, fieldTypeCodes.contains c.TypeCode = true →
      c.Name ∈ (_map_database_col_types tableDef).fieldName ∧
      CHARS.contains c.TypeCode = true := by
  have hd : (_map_database_col_types tableDef).dates = [] :=
    foldl_mapColTypesStep_dates tableDef _
  refine ⟨hd, by rw [hd]; rfl, ?_⟩
  intro c hc hf
  refine ⟨foldl_mapColTypesStep_fieldName_mem tableDef _ c hc hf, ?_⟩
  have h25 : c.TypeCode = 2 ∨ c.TypeCode = 5 := by
    have := List.mem_of_elem_eq_true hf
    simpa [fieldTypeCodes] using this
  rcases h25 with h | h <;> simp [CHARS, h, List.contains, List.elem]

/-- Witness for C10 on a one-column schema holding a date-coded field. -/
theorem c10_import_mapper_empty_dates_witness :
    (_map_database_col_types [⟨"D1", 5, 0⟩]).dates = [] ∧
    "D1" ∈ (_map_database_col_types [⟨"D1", 5, 0⟩]).fieldName :=
  ⟨(c10_import_mapper_empty_dates [⟨"D1", 5, 0⟩] id []).1,
    ((c10_import_mapper_empty_dates [⟨"D1", 5, 0⟩] id []).2.2
      ⟨"D1", 5, 0⟩ (by decide) (by decide)).1⟩

theorem convert_chars_eq_map (chars : List String) :
    ∀ df : List CharColumn,
      _convert_characters_to_categories df chars =
        df.map (fun c =>
          if c.name ∈ chars ∧ nuniqueStr c.values < UNIQUE_VALUE_THRESHHOLD then
            { c with isCategory := true }
          else c) := by
  induction chars with
  | nil =>
    intro df
    simp [_convert_characters_to_categories]
  | cons a t ih =>
    intro df
    have hstep : _convert_characters_to_categories df (a :: t) =
        _convert_characters_to_categories
          (df.map (fun c =>
            if c.name == a ∧ nuniqueStr c.values < UNIQUE_VALUE_THRESHHOLD then
              { c with isCategory := true }
            else c)) t := rfl
    rw [hstep, ih, List.map_map]
    apply List.map_congr_left
    intro c _
    by_cases h1 : c.name = a
    · by_cases h2 : nuniqueStr c.values < UNIQUE_VALUE_THRESHHOLD
      · by_cases h3 : c.name ∈ t <;>
          simp [Function.comp, h1, h2, h3, List.mem_cons]
      · by_cases h3 : c.name ∈ t <;>
          simp [Function.comp, h1, h2, h3, List.mem_cons]
    · by_cases h2 : nuniqueStr c.values < UNIQUE_VALUE_THRESHHOLD <;>
        by_cases h3 : c.name ∈ t <;>
        simp [Function.comp, h1, h2, h3, List.mem_cons]

/-- C3: on import, a Character-typed column named in the characters list is
converted to the bounded categorical dtype exactly when its distinct-value
count is strictly below 2500; with 2500 or more distinct values it keeps its
unbounded object dtype.  Names and cell values are unchanged either way. -/
theorem c3_category_threshold (df : List CharColumn) (chars : List String)
    (i : Nat) (hi : i < df.length)
    (hchar : (df.get ⟨i, hi⟩).name ∈ chars)
    (hcat : (df.get ⟨i, hi⟩).isCategory = false) :
    ∃ hlen : i < (_convert_characters_to_categories df chars).length,
      ((_convert_characters_to_categories df chars).get ⟨i, hlen⟩).name =
        (df.get ⟨i, hi⟩).name ∧
      ((_convert_characters_to_categories df chars).get ⟨i, hlen⟩).values =
        (df.get ⟨i, hi⟩).values ∧
      (((_convert_characters_to_categories df chars).get ⟨i, hlen⟩).isCategory = true ↔
        nuniqueStr (df.get ⟨i, hi⟩).values < 2500) := by
  rw [convert_chars_eq_map]
  refine ⟨by simpa using hi, ?_⟩
  simp only [List.get_eq_getElem, List.getElem_map]
  by_cases h2 : nuniqueStr (df.get ⟨i, hi⟩).values < UNIQUE_VALUE_THRESHHOLD
  · simp only [List.get_eq_getElem] at hchar h2
    simp [hchar, h2]
    simpa [UNIQUE_VALUE_THRESHHOLD] using h2
  · simp only [List.get_eq_getElem] at hchar hcat h2
    simp [hchar, h2, hcat]
    simpa [UNIQUE_VALUE_THRESHHOLD] using h2

/-- Witness for C3: a two-valued column is converted to categorical. -/
theorem c3_category_threshold_witness :
    ∃ hlen : 0 < (_convert_characters_to_categories
        [⟨"ACCT", [some "a", some "b"], false⟩] ["ACCT"]).length,
      (((_convert_characters_to_categories
          [⟨"ACCT", [some "a", some "b"], false⟩] ["ACCT"]).get
            ⟨0, hlen⟩).isCategory = true ↔
        nuniqueStr (([⟨"ACCT", [some "a", some "b"], false⟩] :
            List CharColumn).get ⟨0, by decide⟩).values < 2500) := by
  obtain ⟨hlen, _, _, h⟩ :=
    c3_category_threshold [⟨"ACCT", [some "a", some "b"], false⟩] ["ACCT"]
      0 (by decide) (by decide) (by decide)
  exact ⟨hlen, h⟩

/-- C4: the store-date reconstruction never fails: the output column has the
same length as the input, the literal 00000000 always becomes a null date,
and any value the explicit yyyymmdd parse cannot handle becomes a null
rather than an error. -/
theorem c4_null_date_sentinel (col : List (Option String)) :
    (_convert_character_to_datetime col).length = col.length ∧
    ∀ i : Nat,
      (col.getD i none = some "00000000" →
        (_convert_character_to_datetime col).getD i none = none) ∧
      (∀ s, col.getD i none = some s → parseYmd8 s = none →
        (_convert_character_to_datetime col).getD i none = none) := by
  constructor
  · simp [_convert_character_to_datetime]
  · intro i
    constructor
    · intro h
      have h' : col[i]? = some (some "00000000") := by
        rcases hc : col[i]? with _ | v
        · rw [List.getD_eq_getD_get?, List.get?_eq_getElem?, hc] at h
          simp at h
        · rw [List.getD_eq_getD_get?, List.get?_eq_getElem?, hc] at h
          simpa using congrArg some h
      simp [_convert_character_to_datetime, List.getD_eq_getD_get?,
        List.get?_eq_getElem?, List.getElem?_map, h', replaceNullSentinel,
        toDatetimeCoerce]
    · intro s hs hp
      have h' : col[i]? = some (some s) := by
        rcases hc : col[i]? with _ | v
        · rw [List.getD_eq_getD_get?, List.get?_eq_getElem?, hc] at hs
          simp at hs
        · rw [List.getD_eq_getD_get?, List.get?_eq_getElem?, hc] at hs
          simpa using congrArg some hs
      by_cases hsent : s = "00000000"
      · subst hsent
        simp [_convert_character_to_datetime, List.getD_eq_getD_get?,
          List.get?_eq_getElem?, List.getElem?_map, h', replaceNullSentinel,
          toDatetimeCoerce]
      · simp [_convert_character_to_datetime, List.getD_eq_getD_get?,
          List.get?_eq_getElem?, List.getElem?_map, h', replaceNullSentinel,
          toDatetimeCoerce, hsent, hp]

/-- Witness for C4 on a concrete column holding the null sentinel, a normal
date, an unparseable value and a null. -/
theorem c4_null_date_sentinel_witness :
    (([some "00000000", some "20240131", some "99999999", none] :
        List (Option String)).getD 0 none = some "00000000") ∧
    (_convert_character_to_datetime
        [some "00000000", some "20240131", some "99999999", none]).getD 0 none
      = none ∧
    (_convert_character_to_datetime
        [some "00000000", some "20240131", some "99999999", none]).getD 2 none
      = none :=
  ⟨by decide,
    ((c4_null_date_sentinel
        [some "00000000", some "20240131", some "99999999", none]).2 0).1
      (by decide),
    ((c4_null_date_sentinel
        [some "00000000", some "20240131", some "99999999", none]).2 2).2
      "99999999" (by decide) (by decide)⟩

theorem colNames_mapColData (df : List PCol) (n : String)
    (f : ColData → ColData) : colNames (mapColData df n f) = colNames df := by
  induction df with
  | nil => rfl
  | cons c cs ih =>
    by_cases h : c.name = n <;> simp [mapColData, colNames, h] <;>
      simpa [mapColData, colNames] using ih

theorem colNames_mapColDataDtype (df : List PCol) (n dt : String)
    (f : ColData → ColData) :
    colNames (mapColDataDtype df n dt f) = colNames df := by
  induction df with
  | nil => rfl
  | cons c cs ih =>
    by_cases h : c.name = n <;> simp [mapColDataDtype, colNames, h] <;>
      simpa [mapColDataDtype, colNames] using ih

theorem find?_name_map (l : List PCol) (F : PCol → PCol) (m : String)
    (hF : ∀ c, (F c).name = c.name) (hfix : ∀ c, c.name = m → F c = c) :
    List.find? (fun c => c.name == m) (l.map F) =
      List.find? (fun c => c.name == m) l := by
  induction l with
  | nil => rfl
  | cons c cs ih =>
    by_cases hc : c.name = m
    · rw [List.map_cons, hfix c hc]
      simp [List.find?, hc]
    · have h1 : (c.name == m) = false := by simpa using hc
      have h2 : ((F c).name == m) = false := by rw [hF c]; exact h1
      simp [List.find?, h1, h2, ih]

theorem lookupData_mapColData (df : List PCol) (n : String)
    (f : ColData → ColData) (m : String) (hm : m ≠ n) :
    lookupData (mapColData df n f) m = lookupData df m := by
  unfold lookupData mapColData
  rw [find?_name_map]
  · intro c
    by_cases h : c.name = n <;> simp [h]
  · intro c hc
    have hcn : (c.name == n) = false := by
      simp [hc]; exact fun he => hm he
    simp [hcn]

theorem lookupData_mapColDataDtype (df : List PCol) (n dt : String)
    (f : ColData → ColData) (m : String) (hm : m ≠ n) :
    lookupData (mapColDataDtype df n dt f) m = lookupData df m := by
  unfold lookupData mapColDataDtype
  rw [find?_name_map]
  · intro c
    by_cases h : c.name = n <;> simp [h]
  · intro c hc
    have hcn : (c.name == n) = false := by
      simp [hc]; exact fun he => hm he
    simp [hcn]

theorem lookupData_append_cons (pre : List PCol) (col : PCol)
    (post : List PCol) (h : ∀ c ∈ pre, c.name ≠ col.name) :
    lookupData (pre ++ col :: post) col.name = some col.data := by
  induction pre with
  | nil => simp [lookupData, List.find?]
  | cons x xs ih =>
    have hx : (x.name == col.name) = false := by
      simpa using h x (List.mem_cons_self x xs)
    have ih2 := ih (fun c hc => h c (List.mem_cons_of_mem x hc))
    simpa [lookupData, List.find?, hx] using ih2

theorem cleanStep_nondt (i : Nat) (nm t : String) (s : CleanState)
    (h : containsSub "datetime64" t = false) :
    colNames (cleanStep i nm t s).df = colNames s.df ∧
    (cleanStep i nm t s).toDrop = s.toDrop ∧
    ∀ m, m ≠ nm → lookupData (cleanStep i nm t s).df m = lookupData s.df m := by
  simp only [cleanStep, h, Bool.false_eq_true, if_false]
  refine ⟨?_, ?_, ?_⟩
  · split_ifs <;>
      simp [colNames_mapColData, colNames_mapColDataDtype]
  · split_ifs <;> rfl
  · intro m hm
    split_ifs <;>
      simp [lookupData_mapColData _ _ _ _ hm,
        lookupData_mapColDataDtype _ _ _ _ _ hm]

theorem cleanStep_dt (i : Nat) (nm dt : String) (s : CleanState)
    (rows : List (Option DtCell))
    (hdt : containsSub "datetime64" dt = true)
    (hlook : lookupData s.df nm = some (ColData.dtData rows)) :
    cleanStep i nm dt s =
      if _is_valid_time_column (timeRenderings rows) then
        { df := insertAt (i + 1)
              ⟨nm ++ "_TIME", "object", ColData.strData (timeStrings rows)⟩
              (insertAt i
                ⟨nm ++ "_DATE", "object", ColData.strData (dateStrings rows)⟩
                s.df)
          dateFields := s.dateFields ++ [nm ++ "_DATE"]
          timeFields := s.timeFields ++ [nm ++ "_TIME"]
          toDrop := s.toDrop ++ [nm]
          fmap := dictInsert (dictInsert s.fmap (nm ++ "_DATE") "date")
            (nm ++ "_TIME") "time" }
      else
        { s with
          df := mapColDataDtype s.df nm "object"
            (fun _ => ColData.strData (dateStrings rows))
          dateFields := s.dateFields ++ [nm]
          fmap := dictInsert s.fmap nm "date" } := by
  simp [cleanStep, hdt, hlook]

theorem cleanFold_append :
    ∀ (xs ys : List (String × String)) (i : Nat) (s : CleanState),
      cleanFold i (xs ++ ys) s = cleanFold (i + xs.length) ys (cleanFold i xs s)
  | [], ys, i, s => by simp [cleanFold]
  | (n, t) :: xs, ys, i, s => by
    show cleanFold (i + 1) (xs ++ ys) (cleanStep i n t s) = _
    rw [cleanFold_append xs ys (i + 1) (cleanStep i n t s)]
    have hlen : i + 1 + xs.length = i + ((n, t) :: xs).length := by
      simp; omega
    rw [hlen]
    rfl

theorem cleanFold_nondt :
    ∀ (snaps : List (String × String)) (i : Nat) (s : CleanState),
      (∀ p ∈ snaps, containsSub "datetime64" p.2 = false) →
      colNames (cleanFold i snaps s).df = colNames s.df ∧
      (cleanFold i snaps s).toDrop = s.toDrop ∧
      ∀ m, (∀ p ∈ snaps, p.1 ≠ m) →
        lookupData (cleanFold i snaps s).df m = lookupData s.df m
  | [], _, _, _ => ⟨rfl, rfl, fun _ _ => rfl⟩
  | (n, t) :: rest, i, s, h => by
    have hh : containsSub "datetime64" t = false :=
      h (n, t) (List.mem_cons_self _ _)
    have hrest : ∀ p ∈ rest, containsSub "datetime64" p.2 = false :=
      fun p hp => h p (List.mem_cons_of_mem _ hp)
    obtain ⟨ihn, ihd, ihl⟩ := cleanFold_nondt rest (i + 1) (cleanStep i n t s) hrest
    obtain ⟨sn, sd, sl⟩ := cleanStep_nondt i n t s hh
    have hfold : cleanFold i ((n, t) :: rest) s =
        cleanFold (i + 1) rest (cleanStep i n t s) := rfl
    refine ⟨?_, ?_, ?_⟩
    · rw [hfold, ihn, sn]
    · rw [hfold, ihd, sd]
    · intro m hm
      rw [hfold, ihl m (fun p hp => hm p (List.mem_cons_of_mem _ hp)),
        sl m (fun he => hm (n, t) (List.mem_cons_self _ _) he.symm)]

theorem colNames_filterName (df : List PCol) (p : String → Bool) :
    colNames (df.filter (fun c => p c.name)) = (colNames df).filter p := by
  induction df with
  | nil => rfl
  | cons c cs ih =>
    by_cases h : p c.name = true <;> simp [colNames, List.filter_cons, h] <;>
      simpa [colNames] using ih

theorem append_ne_of_length_pos (n s : String) (hs : 0 < s.length) :
    n ++ s ≠ n := by
  intro h
  have h2 := congrArg String.length h
  rw [String.length_append] at h2
  omega

theorem contains_singleton_str (x y : String) :
    ([y].contains x) = (x == y) := by
  cases h : x == y <;> simp [List.contains, List.elem, h]

theorem colNames_insertAt (j : Nat) (c : PCol) (l : List PCol) :
    colNames (insertAt j c l) = insertAt j c.name (colNames l) := by
  simp [colNames, map_insertAt]

/-- C2 amended: consider a frame whose only datetime64 column is named n
(all other column names differ from n and from the derived sibling names).
When the column's time component passes the source validity test — at least
two distinct non-null values, or exactly one distinct non-null value whose
first row's rendering contains neither the midnight literal nor the
null-time literal — the cleaned frame carries exactly the two adjacent
sibling columns n_DATE and n_TIME in the original position and the original
column is dropped.  Otherwise the frame keeps exactly one date column under
the original name and no n_TIME column exists.  (With two or more datetime
columns the inserted pairs interleave, and the first-row test can reject a
column holding a non-midnight value — see the counterexample.) -/
theorem c2_datetime_split (pre post : List PCol) (n dt : String)
    (rows : List (Option DtCell))
    (hdt : containsSub "datetime64" dt = true)
    (hpre : ∀ c ∈ pre, containsSub "datetime64" c.dtype = false)
    (hpost : ∀ c ∈ post, containsSub "datetime64" c.dtype = false)
    (hpren : ∀ c ∈ pre, c.name ≠ n)
    (hpostn : ∀ c ∈ post, c.name ≠ n)
    (hfresh1 : ∀ c ∈ pre, c.name ≠ n ++ "_TIME")
    (hfresh2 : ∀ c ∈ post, c.name ≠ n ++ "_TIME") :
    (_is_valid_time_column (timeRenderings rows) = true →
      colNames ((_clean_dataframe_for_export
          (pre ++ ⟨n, dt, ColData.dtData rows⟩ :: post)).1) =
        colNames pre ++ (n ++ "_DATE") :: (n ++ "_TIME") :: colNames post) ∧
    (_is_valid_time_column (timeRenderings rows) = false →
      colNames ((_clean_dataframe_for_export
          (pre ++ ⟨n, dt, ColData.dtData rows⟩ :: post)).1) =
        colNames pre ++ n :: colNames post ∧
      (n ++ "_TIME") ∉ colNames ((_clean_dataframe_for_export
          (pre ++ ⟨n, dt, ColData.dtData rows⟩ :: post)).1)) := by
  -- notation for the frame, the snapshot function and the initial state
  set dtcol : PCol := ⟨n, dt, ColData.dtData rows⟩ with hdtcol
  set df : List PCol := pre ++ dtcol :: post with hdf
  set g : PCol → String × String := fun c => (c.name, c.dtype) with hg
  set s0 : CleanState := ⟨df, [], [], [], []⟩ with hs0
  have hnTIME : n ++ "_TIME" ≠ n :=
    append_ne_of_length_pos n "_TIME" (by decide)
  have hnDATE : n ++ "_DATE" ≠ n :=
    append_ne_of_length_pos n "_DATE" (by decide)
  -- the snapshot splits around the datetime column
  have hsnap : df.map g = pre.map g ++ (n, dt) :: post.map g := by
    simp [hdf, hg, hdtcol]
  -- the fold splits at the datetime column
  have hfold0 : cleanFold 0 (df.map g) s0 =
      cleanFold (0 + (pre.map g).length) ((n, dt) :: post.map g)
        (cleanFold 0 (pre.map g) s0) := by
    rw [hsnap, cleanFold_append]
  set s1 : CleanState := cleanFold 0 (pre.map g) s0 with hs1
  -- processing the leading non-datetime columns preserves the structure
  have hpre' : ∀ p ∈ pre.map g, containsSub "datetime64" p.2 = false := by
    intro p hp
    obtain ⟨c, hc, rfl⟩ := List.mem_map.mp hp
    exact hpre c hc
  obtain ⟨h1n, h1d, h1l⟩ := cleanFold_nondt (pre.map g) 0 s0 hpre'
  have hlookdf : lookupData df n = some (ColData.dtData rows) := by
    have h := lookupData_append_cons pre dtcol post (fun c hc => hpren c hc)
    simpa [hdtcol] using h
  have hlook1 : lookupData s1.df n = some (ColData.dtData rows) := by
    rw [hs1, h1l n ?hn]
    · exact hlookdf
    case hn =>
      intro p hp
      obtain ⟨c, hc, rfl⟩ := List.mem_map.mp hp
      exact hpren c hc
  have hnames1 : colNames s1.df = colNames pre ++ n :: colNames post := by
    rw [hs1, h1n]
    simp [hs0, hdf, colNames, hdtcol]
  have hdrop1 : s1.toDrop = [] := by rw [hs1, h1d]
  -- the step at the datetime column
  have hstep := cleanStep_dt (0 + (pre.map g).length) n dt s1 rows hdt hlook1
  have hfold1 : cleanFold (0 + (pre.map g).length) ((n, dt) :: post.map g) s1 =
      cleanFold ((0 + (pre.map g).length) + 1) (post.map g)
        (cleanStep (0 + (pre.map g).length) n dt s1) := rfl
  have hpost' : ∀ p ∈ post.map g, containsSub "datetime64" p.2 = false := by
    intro p hp
    obtain ⟨c, hc, rfl⟩ := List.mem_map.mp hp
    exact hpost c hc
  have hprefilter : List.filter (fun x => !([n].contains x)) (colNames pre) =
      colNames pre := by
    apply List.filter_eq_self.mpr
    intro a ha
    obtain ⟨c, hc, rfl⟩ := List.mem_map.mp ha
    rw [contains_singleton_str]
    simpa using hpren c hc
  have hpostfilter : List.filter (fun x => !([n].contains x)) (colNames post) =
      colNames post := by
    apply List.filter_eq_self.mpr
    intro a ha
    obtain ⟨c, hc, rfl⟩ := List.mem_map.mp ha
    rw [contains_singleton_str]
    simpa using hpostn c hc
  constructor
  · -- valid time column: the pair is inserted and the original dropped
    intro hv
    set s2 : CleanState := cleanStep (0 + (pre.map g).length) n dt s1 with hs2
    have hs2eq : s2 =
        { df := insertAt ((0 + (pre.map g).length) + 1)
              ⟨n ++ "_TIME", "object", ColData.strData (timeStrings rows)⟩
              (insertAt (0 + (pre.map g).length)
                ⟨n ++ "_DATE", "object", ColData.strData (dateStrings rows)⟩
                s1.df)
          dateFields := s1.dateFields ++ [n ++ "_DATE"]
          timeFields := s1.timeFields ++ [n ++ "_TIME"]
          toDrop := s1.toDrop ++ [n]
          fmap := dictInsert (dictInsert s1.fmap (n ++ "_DATE") "date")
            (n ++ "_TIME") "time" } := by
      rw [hstep, if_pos hv]
    obtain ⟨h3n, h3d, _⟩ :=
      cleanFold_nondt (post.map g) ((0 + (pre.map g).length) + 1) s2 hpost'
    have hnames2 : colNames s2.df =
        colNames pre ++ (n ++ "_DATE") :: (n ++ "_TIME") :: n ::
          colNames post := by
      rw [hs2eq]
      show colNames (insertAt _ _ (insertAt _ _ s1.df)) = _
      rw [colNames_insertAt, colNames_insertAt, hnames1]
      have hlen : 0 + (pre.map g).length = (colNames pre).length := by
        simp [colNames]
      rw [hlen]
      rw [insertAt_length_self (colNames pre) (n :: colNames post)
        (n ++ "_DATE")]
      have hsplit : colNames pre ++ (n ++ "_DATE") :: n :: colNames post =
          (colNames pre ++ [n ++ "_DATE"]) ++ n :: colNames post := by
        simp
      rw [hsplit]
      have hlen2 : (colNames pre).length + 1 =
          (colNames pre ++ [n ++ "_DATE"]).length := by simp
      rw [hlen2]
      rw [insertAt_length_self (colNames pre ++ [n ++ "_DATE"])
        (n :: colNames post) (n ++ "_TIME")]
      simp
    have hdrop2 : s2.toDrop = [n] := by rw [hs2eq]; simp [hdrop1]
    -- expand the top-level definition
    show colNames ((cleanFold 0 (df.map g) s0).df.filter
        (fun c => !((cleanFold 0 (df.map g) s0).toDrop.contains c.name))) = _
    rw [hfold0, hfold1, h3d, hdrop2]
    rw [colNames_filterName _ (fun x => !([n].contains x))]
    rw [h3n, hnames2]
    rw [List.filter_append, hprefilter]
    have hpD : (!([n].contains (n ++ "_DATE"))) = true := by
      rw [contains_singleton_str]; simpa using hnDATE
    have hpT : (!([n].contains (n ++ "_TIME"))) = true := by
      rw [contains_singleton_str]; simpa using hnTIME
    have hpN : (!([n].contains n)) = false := by
      rw [contains_singleton_str]; simp
    rw [List.filter_cons, List.filter_cons, List.filter_cons]
    simp only [hpD, hpT, hpN, if_true, if_false]
    rw [hpostfilter]
    simp
  · -- invalid time column: single date column, no time sibling
    intro hv
    set s2 : CleanState := cleanStep (0 + (pre.map g).length) n dt s1 with hs2
    have hs2eq : s2 =
        { s1 with
          df := mapColDataDtype s1.df n "object"
            (fun _ => ColData.strData (dateStrings rows))
          dateFields := s1.dateFields ++ [n]
          fmap := dictInsert s1.fmap n "date" } := by
      rw [hstep, if_neg (by simp [hv])]
    obtain ⟨h3n, h3d, _⟩ :=
      cleanFold_nondt (post.map g) ((0 + (pre.map g).length) + 1) s2 hpost'
    have hnames2 : colNames s2.df = colNames pre ++ n :: colNames post := by
      rw [hs2eq]
      exact (colNames_mapColDataDtype s1.df n "object"
        (fun _ => ColData.strData (dateStrings rows))).trans hnames1
    have hdrop2 : s2.toDrop = [] := by rw [hs2eq]; exact hdrop1
    have hout : colNames ((_clean_dataframe_for_export df).1) =
        colNames pre ++ n :: colNames post := by
      show colNames ((cleanFold 0 (df.map g) s0).df.filter
          (fun c => !((cleanFold 0 (df.map g) s0).toDrop.contains c.name))) = _
      rw [hfold0, hfold1, h3d, hdrop2]
      have hpred : (fun (c : PCol) => !(([] : List String).contains c.name)) =
          (fun (_ : PCol) => true) := by
        funext c; simp [List.contains]
      rw [hpred, List.filter_true, h3n]
      exact hnames2
    refine ⟨hout, ?_⟩
    rw [hout]
    intro hmem
    rcases List.mem_append.mp hmem with hmem | hmem
    · obtain ⟨c, hc, he⟩ := List.mem_map.mp hmem
      exact hfresh1 c hc he
    · rcases List.mem_cons.mp hmem with he | hmem
      · exact hnTIME he
      · obtain ⟨c, hc, he⟩ := List.mem_map.mp hmem
        exact hfresh2 c hc he

/-- Witness for C2 on a frame holding one valid datetime column between an
integer column and a boolean column: the cleaned frame carries the adjacent
pair in the original position. -/
theorem c2_datetime_split_witness :
    colNames ((_clean_dataframe_for_export
        [⟨"X", "int64", ColData.intData [1, 2]⟩,
         ⟨"T", "datetime64[ns]", ColData.dtData
            [some ⟨"2024-01-01", "05:00:00"⟩, some ⟨"2024-01-02", "06:00:00"⟩]⟩,
         ⟨"Y", "bool", ColData.boolData [true, false]⟩]).1) =
      ["X", "T_DATE", "T_TIME", "Y"] :=
  ((c2_datetime_split
      [⟨"X", "int64", ColData.intData [1, 2]⟩]
      [⟨"Y", "bool", ColData.boolData [true, false]⟩]
      "T" "datetime64[ns]"
      [some ⟨"2024-01-01", "05:00:00"⟩, some ⟨"2024-01-02", "06:00:00"⟩]
      (by decide) (by decide) (by decide) (by decide) (by decide)
      (by decide) (by decide)).1 (by decide)).trans (by decide)

/-- C2 counterexample.  First part: a frame with two datetime columns A and
B whose times are valid is cleaned to the column order A_DATE, B_DATE,
B_TIME, A_TIME — the sibling columns of A are not adjacent and the pair does
not sit at the original position, because each insertion position is the
index in the original frame while the frame has already grown.  Second
part: a single datetime column whose first row is null and whose second row
carries the distinct non-midnight time 05:00:00 is cleaned to a single date
column with no T_TIME sibling, because the validity test inspects only the
first row's rendering, which is the null literal. -/
theorem c2_counterexample :
    (colNames ((_clean_dataframe_for_export
        [⟨"A", "datetime64[ns]", ColData.dtData
            [some ⟨"2024-01-01", "05:00:00"⟩, some ⟨"2024-01-02", "06:00:00"⟩]⟩,
         ⟨"B", "datetime64[ns]", ColData.dtData
            [some ⟨"2024-01-01", "07:00:00"⟩, some ⟨"2024-01-02", "08:00:00"⟩]⟩]).1) =
      ["A_DATE", "B_DATE", "B_TIME", "A_TIME"]) ∧
    (some "05:00:00" ∈ timeRenderings [none, some ⟨"2024-01-02", "05:00:00"⟩]) ∧
    (colNames ((_clean_dataframe_for_export
        [⟨"T", "datetime64[ns]", ColData.dtData
            [none, some ⟨"2024-01-02", "05:00:00"⟩]⟩]).1) = ["T"]) ∧
    ("T_TIME" ∉ colNames ((_clean_dataframe_for_export
        [⟨"T", "datetime64[ns]", ColData.dtData
            [none, some ⟨"2024-01-02", "05:00:00"⟩]⟩]).1)) := by
  decide

theorem foldl_max_bound (xs : List Nat) :
    ∀ x : Nat, x ≤ xs.foldl max x ∧ ∀ r ∈ xs, r ≤ xs.foldl max x := by
  induction xs with
  | nil => intro x; exact ⟨le_refl x, by simp⟩
  | cons y ys ih =>
    intro x
    rw [List.foldl_cons]
    refine ⟨le_trans (le_max_left x y) (ih (max x y)).1, ?_⟩
    intro r hr
    rcases List.mem_cons.mp hr with h | h
    · subst h
      exact le_trans (le_max_right x r) (ih (max x r)).1
    · exact (ih (max x y)).2 r h

theorem foldl_max_attained (xs : List Nat) :
    ∀ x : Nat, xs.foldl max x = x ∨ xs.foldl max x ∈ xs := by
  induction xs with
  | nil => intro x; exact Or.inl rfl
  | cons y ys ih =>
    intro x
    rw [List.foldl_cons]
    rcases ih (max x y) with h | h
    · rcases max_choice x y with hm | hm
      · exact Or.inl (by rw [h, hm])
      · exact Or.inr (by rw [h, hm]; exact List.mem_cons_self y ys)
    · exact Or.inr (List.mem_cons_of_mem y h)

/-- C1 amended: for a Float-typed column with at least one value, the
template builder emits a Numeric field whose decimal count is the minimum of
6 and the maximum over all values of the length of the rendering's text
after the last decimal point; the maximum is attained by some value.  (For a
column with no values the max() call raises instead of emitting 0 — see the
counterexample.) -/
theorem c1_float_decimal_clamp (dateFields timeFields : List String)
    (dateMask timeMask name dtype : String) (renderings : List String)
    (hf : floatTypeStrings.contains dtype = true)
    (hd : dateFields.contains name = false)
    (ht : timeFields.contains name = false)
    (hne : renderings ≠ []) :
    ∃ m, maxObservedDecimals renderings = some m ∧
      (∀ r ∈ renderings, decimalsAfterPoint r ≤ m) ∧
      (∃ r ∈ renderings, decimalsAfterPoint r = m) ∧
      appendFieldFor dateFields timeFields dateMask timeMask name dtype
          renderings =
        some ⟨name, 2, 0, 1, min 6 m, false, ""⟩ := by
  obtain ⟨r0, rest, rfl⟩ := List.exists_cons_of_ne_nil hne
  have hmax : maxObservedDecimals (r0 :: rest) =
      some ((rest.map decimalsAfterPoint).foldl max (decimalsAfterPoint r0)) := by
    simp [maxObservedDecimals]
  set m := (rest.map decimalsAfterPoint).foldl max (decimalsAfterPoint r0) with hm
  refine ⟨m, hmax, ?_, ?_, ?_⟩
  · intro r hr
    rcases List.mem_cons.mp hr with h | h
    · subst h
      exact (foldl_max_bound (rest.map decimalsAfterPoint) (decimalsAfterPoint r)).1
    · exact (foldl_max_bound (rest.map decimalsAfterPoint) (decimalsAfterPoint r0)).2
        (decimalsAfterPoint r) (List.mem_map_of_mem decimalsAfterPoint h)
  · rcases foldl_max_attained (rest.map decimalsAfterPoint) (decimalsAfterPoint r0)
      with h | h
    · exact ⟨r0, List.mem_cons_self r0 rest, h.symm⟩
    · obtain ⟨r, hr, hrm⟩ := List.mem_map.mp h
      exact ⟨r, List.mem_cons_of_mem r0 hr, hrm⟩
  · have hmem : dtype ∈ floatTypeStrings := by simpa using hf
    have hcat : (dtype == "category") = false := by
      simp only [floatTypeStrings, List.mem_cons, List.not_mem_nil, or_false] at hmem
      rcases hmem with h | h | h | h | h <;> (subst h; decide)
    have hint : intTypeStrings.contains dtype = false := by
      simp only [floatTypeStrings, List.mem_cons, List.not_mem_nil, or_false] at hmem
      rcases hmem with h | h | h | h | h <;> (subst h; decide)
    have hclamp : (if m > 6 then 6 else m) = min 6 m := by split <;> omega
    have hd' : name ∉ dateFields := by simpa using hd
    have ht' : name ∉ timeFields := by simpa using ht
    have hint' : dtype ∉ intTypeStrings := by simpa using hint
    simp [appendFieldFor, hd', ht', hcat, hint', hmem, floatFieldDecimals,
      hmax, hclamp]

/-- Witness for C1 on the concrete scenario of a Float column holding the
renderings 19.999999 and 5.5: the observed maximum is 6 and the emitted
decimal count is 6. -/
theorem c1_float_decimal_clamp_witness :
    floatTypeStrings.contains "float64" = true ∧
    (["19.999999", "5.5"] : List String) ≠ [] ∧
    ∃ m, maxObservedDecimals ["19.999999", "5.5"] = some m ∧
      (∀ r ∈ (["19.999999", "5.5"] : List String), decimalsAfterPoint r ≤ m) ∧
      (∃ r ∈ (["19.999999", "5.5"] : List String), decimalsAfterPoint r = m) ∧
      appendFieldFor [] [] "yyyy-mm-dd" "HH:MM:SS" "amount" "float64"
          ["19.999999", "5.5"] =
        some ⟨"amount", 2, 0, 1, min 6 m, false, ""⟩ :=
  ⟨by decide, by decide,
    c1_float_decimal_clamp [] [] "yyyy-mm-dd" "HH:MM:SS" "amount" "float64"
      ["19.999999", "5.5"] (by decide) (by decide) (by decide) (by decide)⟩

/-- C1 counterexample: for a Float column containing no values, the claim
says a decimal count of 0 is emitted; in the code the max() call raises a
ValueError on the empty sequence, so no field is emitted at all (the
conversion aborts). -/
theorem c1_counterexample :
    appendFieldFor [] [] "yyyy-mm-dd" "HH:MM:SS" "amount" "float64" [] =
      none ∧
    appendFieldFor [] [] "yyyy-mm-dd" "HH:MM:SS" "amount" "float64" [] ≠
      some ⟨"amount", 2, 0, 1, 0, false, ""⟩ := by
  exact ⟨by decide, by decide⟩

/-- C8 amended: both CSV directions share the configured field delimiter,
the double-quote character and the quote-all-non-numeric quoting mode; the
parse direction uses the configured decimal separator, but the serialize
direction always uses a period, so the decimal separators of the two
directions agree exactly when the configured decimal separator is a
period. -/
theorem c8_adapter_params (dp : String) :
    (exportDataframeParams (mkSeparatorConfig dp)).sep =
      (importCsvParams (mkSeparatorConfig dp)).sep ∧
    (exportDataframeParams (mkSeparatorConfig dp)).quoting = QUOTE_NONNUMERIC ∧
    (importCsvParams (mkSeparatorConfig dp)).quoting = QUOTE_NONNUMERIC ∧
    (exportDataframeParams (mkSeparatorConfig dp)).quotechar = '"' ∧
    (importCsvParams (mkSeparatorConfig dp)).quotechar = '"' ∧
    (importCsvParams (mkSeparatorConfig dp)).decimal = dp ∧
    (exportDataframeParams (mkSeparatorConfig dp)).decimal = "." ∧
    ((exportDataframeParams (mkSeparatorConfig dp)).decimal =
        (importCsvParams (mkSeparatorConfig dp)).decimal ↔ dp = ".") := by
  refine ⟨rfl, rfl, rfl, rfl, rfl, rfl, rfl, ?_⟩
  simp [exportDataframeParams, importCsvParams]
  exact ⟨fun h => h.symm, fun h => h.symm⟩

theorem resolveDbName_events (env : Py2IdeaEnv) (dbn : String) :
    ∀ e ∈ (resolveDbName env dbn).2,
      e = Event.readDbExtension ∨ e = Event.readWorkingDirectory := by
  rcases hsp : splitext dbn with ⟨root, ext⟩
  by_cases hne : (strLower ext != ".imd" && strLower ext != ".idm") = true
  · rcases hdbe : env.dbExtension with _ | e0
    · intro e he
      simp [resolveDbName, hsp, hne, hdbe] at he
      exact Or.inl he
    · by_cases hcb : (countBackslashes (root ++ e0) == 0) = true
      · intro e he
        simp [resolveDbName, hsp, hne, hdbe, hcb] at he
        tauto
      · intro e he
        simp [resolveDbName, hsp, hne, hdbe, hcb] at he
        exact Or.inl he
  · by_cases hcb : (countBackslashes dbn == 0) = true
    · intro e he
      simp [resolveDbName, hsp, hne, hcb] at he
      exact Or.inr he
    · intro e he
      simp [resolveDbName, hsp, hne, hcb] at he

theorem py2idea_convert_cleanup (env : Py2IdeaEnv) (dbName : String)
    (t : List Event) (ht : Event.cleanupTempDir ∉ t) :
    Event.createTempDir ∈ (py2idea_convert env dbName t).2 ∧
    (env.conversionSucceeds = true →
      Event.cleanupTempDir ∈ (py2idea_convert env dbName t).2) ∧
    (env.conversionSucceeds = false →
      Event.cleanupTempDir ∉ (py2idea_convert env dbName t).2) := by
  refine ⟨?_, ?_, ?_⟩
  · cases hcs : env.conversionSucceeds <;> simp [py2idea_convert, hcs]
  · intro h; simp [py2idea_convert, h]
  · intro h; simp [py2idea_convert, h, ht]

/-- C6 amended: a zero-row dataframe handed to py2idea is rejected with a
None result and an empty event trace — no store interaction of any kind and
no temporary directory; a zero-record database handed to idea2py is rejected
with a None result immediately after the record-count read, so no export
task runs, no table definition is read and no temporary directory is
created (the database open and the count read themselves necessarily
precede the check). -/
theorem c6_empty_input_rejected :
    (∀ (env : Py2IdeaEnv) (df : List PCol) (nm : String) (flag : Bool),
      frameLen df = 0 →
      py2idea_model env (some df) (some nm) flag = (none, [])) ∧
    (∀ (env : Idea2PyEnv) (db : String),
      env.openSucceeds = true → env.dbCount = 0 →
      (idea2py_model env db).1 = none ∧
      Event.exportTask ∉ (idea2py_model env db).2 ∧
      Event.createTempDir ∉ (idea2py_model env db).2 ∧
      Event.readTableDef ∉ (idea2py_model env db).2) := by
  constructor
  · intro env df nm flag h
    simp [py2idea_model, h]
  · intro env db hopen hcount
    rcases hsp : splitext db with ⟨root, ext⟩
    by_cases hne : (strLower ext != ".imd" && strLower ext != ".idm") = true
    · rcases hdbe : env.dbExtension with _ | e
      · simp [idea2py_model, hsp, hne, hdbe]
      · simp [idea2py_model, hsp, hne, hdbe, hopen, hcount]
    · simp [idea2py_model, hsp, hne, hopen, hcount]

/-- Witness for C6: a zero-row frame and a zero-record database on concrete
environments. -/
theorem c6_empty_input_rejected_witness :
    py2idea_model ⟨some ".imd", "C:\\wd", fun _ => false, id, true⟩
      (some [⟨"X", "int64", ColData.intData []⟩]) (some "db.imd") false =
      (none, []) ∧
    (idea2py_model ⟨some ".imd", true, 0, true⟩ "test.imd").1 = none ∧
    Event.exportTask ∉ (idea2py_model ⟨some ".imd", true, 0, true⟩ "test.imd").2 ∧
    Event.createTempDir ∉
      (idea2py_model ⟨some ".imd", true, 0, true⟩ "test.imd").2 :=
  ⟨c6_empty_input_rejected.1 ⟨some ".imd", "C:\\wd", fun _ => false, id, true⟩
      [⟨"X", "int64", ColData.intData []⟩] "db.imd" false (by decide),
    (c6_empty_input_rejected.2 ⟨some ".imd", true, 0, true⟩ "test.imd"
      rfl rfl).1,
    (c6_empty_input_rejected.2 ⟨some ".imd", true, 0, true⟩ "test.imd"
      rfl rfl).2.1,
    (c6_empty_input_rejected.2 ⟨some ".imd", true, 0, true⟩ "test.imd"
      rfl rfl).2.2.1⟩

/-- C6 counterexample: for a zero-record database the import direction has
already opened the database and read its record count when it rejects the
conversion, so the run does perform store interactions, contradicting the
claim that no store interaction is attempted. -/
theorem c6_counterexample :
    (idea2py_model ⟨some ".imd", true, 0, true⟩ "test.imd").1 = none ∧
    Event.openDatabase "test.imd" ∈
      (idea2py_model ⟨some ".imd", true, 0, true⟩ "test.imd").2 ∧
    isStoreInteraction (Event.openDatabase "test.imd") = true := by
  decide

/-- C7 amended: in every run of either driver that reaches the conversion
stage (creates the per-call temporary directory), the explicit cleanup call
runs exactly when the try block succeeds: on the success path the trace
contains the cleanup event, and on the failure path the function returns
from the except handler without any cleanup call (deletion of the directory
is left to the temporary-directory object finaliser). -/
theorem c7_tempdir_cleanup :
    (∀ (env : Py2IdeaEnv) (dataframe : Option (List PCol))
        (databaseName : Option String) (flag : Bool),
      Event.createTempDir ∈ (py2idea_model env dataframe databaseName flag).2 →
        (env.conversionSucceeds = true →
          Event.cleanupTempDir ∈
            (py2idea_model env dataframe databaseName flag).2) ∧
        (env.conversionSucceeds = false →
          Event.cleanupTempDir ∉
            (py2idea_model env dataframe databaseName flag).2)) ∧
    (∀ (env : Idea2PyEnv) (db : String),
      Event.createTempDir ∈ (idea2py_model env db).2 →
        (env.conversionSucceeds = true →
          Event.cleanupTempDir ∈ (idea2py_model env db).2) ∧
        (env.conversionSucceeds = false →
          Event.cleanupTempDir ∉ (idea2py_model env db).2)) := by
  constructor
  · intro env dataframe databaseName flag hmem
    rcases databaseName with _ | dbn
    · simp [py2idea_model] at hmem
    rcases dataframe with _ | df
    · simp [py2idea_model] at hmem
    by_cases hlen : (frameLen df == 0) = true
    · simp [py2idea_model, hlen] at hmem
    rcases hres : resolveDbName env dbn with ⟨ores, t⟩
    have hclean : Event.cleanupTempDir ∉ t := by
      intro hc
      rcases resolveDbName_events env dbn Event.cleanupTempDir
          (by rw [hres]; exact hc) with h | h <;> cases h
    rcases ores with _ | name1
    · simp [py2idea_model, hlen, hres] at hmem
      rcases resolveDbName_events env dbn Event.createTempDir
          (by rw [hres]; exact hmem) with h | h <;> cases h
    by_cases hex : env.fileExists name1 = true
    · by_cases hflag : flag = true
      · subst hflag
        have hconv := py2idea_convert_cleanup env (env.uniqueName name1) t hclean
        simp only [py2idea_model, hlen, hres, hex, if_true] at hmem ⊢
        exact ⟨hconv.2.1, hconv.2.2⟩
      · have hflag2 : flag = false := by
          cases flag
          · rfl
          · exact absurd rfl hflag
        subst hflag2
        simp [py2idea_model, hlen, hres, hex] at hmem
        rcases resolveDbName_events env dbn Event.createTempDir
            (by rw [hres]; exact hmem) with h | h <;> cases h
    · have hex2 : env.fileExists name1 = false := by
        cases hfe : env.fileExists name1
        · rfl
        · exact absurd hfe hex
      have hconv := py2idea_convert_cleanup env name1 t hclean
      simp only [py2idea_model, hlen, hres, hex2, Bool.false_eq_true,
        if_false] at hmem ⊢
      exact ⟨hconv.2.1, hconv.2.2⟩
  · intro env db hmem
    rcases hsp : splitext db with ⟨root, ext⟩
    by_cases hne : (strLower ext != ".imd" && strLower ext != ".idm") = true
    · rcases hdbe : env.dbExtension with _ | e
      · simp [idea2py_model, hsp, hne, hdbe] at hmem
      · by_cases hopen : env.openSucceeds = true
        · by_cases hcnt : (env.dbCount == 0) = true
          · simp [idea2py_model, hsp, hne, hdbe, hopen, hcnt] at hmem
          · cases hcs : env.conversionSucceeds <;>
              simp [idea2py_model, hsp, hne, hdbe, hopen, hcnt, hcs]
        · have hopen2 : env.openSucceeds = false := by
            cases ho : env.openSucceeds
            · rfl
            · exact absurd ho hopen
          simp [idea2py_model, hsp, hne, hdbe, hopen2] at hmem
    · by_cases hopen : env.openSucceeds = true
      · by_cases hcnt : (env.dbCount == 0) = true
        · simp [idea2py_model, hsp, hne, hopen, hcnt] at hmem
        · cases hcs : env.conversionSucceeds <;>
            simp [idea2py_model, hsp, hne, hopen, hcnt, hcs]
      · have hopen2 : env.openSucceeds = false := by
          cases ho : env.openSucceeds
          · rfl
          · exact absurd ho hopen
        simp [idea2py_model, hsp, hne, hopen2] at hmem

/-- Witness for C7: a successful idea2py run creates the temporary directory
and also cleans it up. -/
theorem c7_tempdir_cleanup_witness :
    Event.createTempDir ∈
      (idea2py_model ⟨some ".imd", true, 5, true⟩ "test.imd").2 ∧
    Event.cleanupTempDir ∈
      (idea2py_model ⟨some ".imd", true, 5, true⟩ "test.imd").2 :=
  ⟨by decide,
    (c7_tempdir_cleanup.2 ⟨some ".imd", true, 5, true⟩ "test.imd"
      (by decide)).1 rfl⟩

/-- C7 counterexample: a py2idea run whose conversion stage fails creates
the temporary directory but its trace contains no cleanup call — the
except handler returns None without deleting the directory, contradicting
deletion on every exit path. -/
theorem c7_counterexample :
    Event.createTempDir ∈
      (py2idea_model ⟨some ".imd", "C:\\wd", fun _ => false, id, false⟩
        (some [⟨"X", "int64", ColData.intData [1]⟩]) (some "db.imd") false).2 ∧
    Event.cleanupTempDir ∉
      (py2idea_model ⟨some ".imd", "C:\\wd", fun _ => false, id, false⟩
        (some [⟨"X", "int64", ColData.intData [1]⟩]) (some "db.imd") false).2 ∧
    (py2idea_model ⟨some ".imd", "C:\\wd", fun _ => false, id, false⟩
        (some [⟨"X", "int64", ColData.intData [1]⟩]) (some "db.imd") false).1 =
      none := by
  decide

/-- C9: when the resolved target database file exists and createUniqueFile
is false, py2idea returns None and its trace contains no temporary-directory
creation, no intermediate CSV write and no store import — the existing
database is left untouched. -/
theorem c9_existing_target_rejected (env : Py2IdeaEnv) (df : List PCol)
    (nm resolved : String) (t : List Event)
    (hres : resolveDbName env nm = (some resolved, t))
    (hex : env.fileExists resolved = true) :
    (py2idea_model env (some df) (some nm) false).1 = none ∧
    Event.createTempDir ∉ (py2idea_model env (some df) (some nm) false).2 ∧
    Event.writeCsv ∉ (py2idea_model env (some df) (some nm) false).2 ∧
    ∀ x : String,
      Event.storeImport x ∉ (py2idea_model env (some df) (some nm) false).2 := by
  by_cases hlen : (frameLen df == 0) = true
  · simp [py2idea_model, hlen]
  · have hall : ∀ e ∈ (py2idea_model env (some df) (some nm) false).2,
        e = Event.readDbExtension ∨ e = Event.readWorkingDirectory := by
      intro e he
      simp only [py2idea_model, hlen, Bool.false_eq_true, if_false, hres,
        hex, if_true] at he
      exact resolveDbName_events env nm e (by rw [hres]; exact he)
    refine ⟨?_, ?_, ?_, ?_⟩
    · simp [py2idea_model, hlen, hres, hex]
    · intro hc
      rcases hall Event.createTempDir hc with h | h <;> cases h
    · intro hc
      rcases hall Event.writeCsv hc with h | h <;> cases h
    · intro x hc
      rcases hall (Event.storeImport x) hc with h | h <;> cases h

/-- Witness for C9 on a concrete environment where the resolved target
exists. -/
theorem c9_existing_target_rejected_witness :
    (py2idea_model
      ⟨some ".imd", "C:\\wd", fun s => s == "C:\\wd\\db.imd", id, true⟩
      (some [⟨"X", "int64", ColData.intData [1]⟩]) (some "db") false).1 =
      none ∧
    Event.createTempDir ∉
      (py2idea_model
        ⟨some ".imd", "C:\\wd", fun s => s == "C:\\wd\\db.imd", id, true⟩
        (some [⟨"X", "int64", ColData.intData [1]⟩]) (some "db") false).2 :=
  ⟨(c9_existing_target_rejected
      ⟨some ".imd", "C:\\wd", fun s => s == "C:\\wd\\db.imd", id, true⟩
      [⟨"X", "int64", ColData.intData [1]⟩] "db" "C:\\wd\\db.imd"
      [Event.readDbExtension, Event.readWorkingDirectory]
      (by decide) (by decide)).1,
    (c9_existing_target_rejected
      ⟨some ".imd", "C:\\wd", fun s => s == "C:\\wd\\db.imd", id, true⟩
      [⟨"X", "int64", ColData.intData [1]⟩] "db" "C:\\wd\\db.imd"
      [Event.readDbExtension, Event.readWorkingDirectory]
      (by decide) (by decide)).2.1⟩

end IDEALib
